import Mathlib

/-!
Verification development for the physics-agent repository core:
the analytical solver (core/physics_solver.py), the rigid-body simulation
driver (core/simulation_engine.py) and the verification engine
(core/verification.py).  Exact arithmetic uses Rat; formulas involving
square roots use Real.  Python dict lookups with a default are embedded as
total getter functions returning the default on a missing key.
-/

namespace PhysicsAgent

/-- ProblemType enum from utils/data_models.py. -/
inductive ProblemType where
  | general
  | kinematics
  | projectile
  | free_fall
  | pendulum
  | collision
  | spring
  | circular
  | other
deriving DecidableEq

/-- Shape of Solution.answer as consumed by VerificationEngine.verify_solution:
either a scalar or a two-element list (collision final velocities). -/
inductive Answer where
  | scalar (x : ℚ)
  | pair (x y : ℚ)
deriving DecidableEq

/-- Possible return values of SimulationEngine.simulate: None (falsy), the
error dict produced by its except clause, or a per-family result dict. -/
inductive SimReturn where
  | none
  | errorDict (msg : String)
  | projectile (range max_height time_flight : ℚ)
  | freeFall (distance final_velocity time_fall : ℚ)
  | pendulum (period : ℚ)
  | collision (velocity_a_final velocity_b_final : ℚ)
deriving DecidableEq

/-- Embedding of sim_result.get("range", 0). -/
def SimReturn.getRange : SimReturn → ℚ
  | .projectile r _ _ => r
  | _ => 0

/-- Embedding of sim_result.get("final_velocity", 0). -/
def SimReturn.getFinalVelocity : SimReturn → ℚ
  | .freeFall _ v _ => v
  | _ => 0

/-- Embedding of sim_result.get("distance", 0). -/
def SimReturn.getDistance : SimReturn → ℚ
  | .freeFall d _ _ => d
  | _ => 0

/-- Embedding of sim_result.get("period", 0). -/
def SimReturn.getPeriod : SimReturn → ℚ
  | .pendulum p => p
  | _ => 0

/-- Embedding of sim_result.get("velocity_a_final", 0). -/
def SimReturn.getVelocityAFinal : SimReturn → ℚ
  | .collision a _ => a
  | _ => 0

/-- Embedding of sim_result.get("velocity_b_final", 0). -/
def SimReturn.getVelocityBFinal : SimReturn → ℚ
  | .collision _ b => b
  | _ => 0

/-- VerificationResult from utils/data_models.py, restricted to the fields
the verification logic writes (analytical_result and the display string
simulation_result are pass-through formatting and are omitted). -/
structure VerificationResult where
  is_valid : Bool
  confidence : ℚ
  error : Option String
  agreement_score : ℚ
deriving DecidableEq

/-- VerificationEngine._calculate_agreement_score from core/verification.py. -/
def calculateAgreementScore (analytical simulated : ℚ) : ℚ :=
  if analytical = 0 ∧ simulated = 0 then 1
  else if analytical = 0 ∨ simulated = 0 then 0
  else max 0 (1 - |analytical - simulated| / max |analytical| |simulated|)

/-- Scalar comparison tail of verify_solution: the isinstance check sends a
scalar analytical answer to _calculate_agreement_score against the scalar
simulated value.  A list answer against a scalar simulated value also
reaches _calculate_agreement_score: a list compares unequal to 0, so when
the simulated value is 0 the short-circuit analytical == 0 or
simulated == 0 fires first and returns score 0.0, and the success tail
completes with error none, is_valid false and confidence 0; only when the
simulated value is nonzero does abs(list - float) raise TypeError, which
the outer except converts into an error result. -/
def compareScalar (answer : Answer) (simulated : ℚ) : VerificationResult :=
  match answer with
  | .scalar a =>
      let score := calculateAgreementScore a simulated
      ⟨decide (score > 4/5), score, Option.none, score⟩
  | .pair _ _ =>
      if simulated = 0 then ⟨false, 0, Option.none, 0⟩
      else ⟨false, 0, some "unsupported operand type(s) for -: it and float", 0⟩

/-- Collision comparison tail of verify_solution: a two-element analytical
answer is scored componentwise with weights 0.5 and 0.5.  A scalar answer
against the simulated list also reaches _calculate_agreement_score: when
the scalar is 0 the short-circuit analytical == 0 or simulated == 0 fires
first and returns score 0.0, and the success tail completes with error
none, is_valid false and confidence 0; only a nonzero scalar reaches
abs(float - list), raising TypeError, converted by the outer except into
an error result. -/
def comparePair (answer : Answer) (simulated : ℚ × ℚ) : VerificationResult :=
  match answer with
  | .pair a b =>
      let score := calculateAgreementScore a simulated.1 * (1/2)
        + calculateAgreementScore b simulated.2 * (1/2)
      ⟨decide (score > 4/5), score, Option.none, score⟩
  | .scalar a =>
      if a = 0 then ⟨false, 0, Option.none, 0⟩
      else ⟨false, 0, some "unsupported operand type(s) for -: float and it", 0⟩

/-- VerificationEngine.verify_solution from core/verification.py, as a
function of the problem type, the quantity_asked entry of
initial_conditions, the analytical answer and the simulator return value.
The guard if not sim_result only fires on a falsy value (None); the error
dict is truthy and flows into the comparison, where every get defaults
to 0. -/
def verify_solution (ptype : ProblemType) (quantity_asked : Option String)
    (answer : Answer) (sim : SimReturn) : VerificationResult :=
  if sim = SimReturn.none then
    ⟨false, 0, some "Simulation failed to run", 0⟩
  else
    match ptype with
    | .projectile => compareScalar answer sim.getRange
    | .free_fall =>
        if quantity_asked = some "final_velocity" then
          compareScalar answer sim.getFinalVelocity
        else
          compareScalar answer sim.getDistance
    | .pendulum => compareScalar answer sim.getPeriod
    | .collision => comparePair answer (sim.getVelocityAFinal, sim.getVelocityBFinal)
    | _ => ⟨false, 0, some "Problem type not supported for verification", 0⟩

/-! Helper lemmas about the agreement score. -/

lemma calculateAgreementScore_comm (a s : ℚ) :
    calculateAgreementScore a s = calculateAgreementScore s a := by
  by_cases ha : a = 0 <;> by_cases hs : s = 0 <;>
    simp [calculateAgreementScore, ha, hs, abs_sub_comm, max_comm]

lemma calculateAgreementScore_nonneg (a s : ℚ) : 0 ≤ calculateAgreementScore a s := by
  unfold calculateAgreementScore
  split_ifs with h1 h2
  · norm_num
  · norm_num
  · exact le_max_left 0 _

lemma calculateAgreementScore_le_one (a s : ℚ) : calculateAgreementScore a s ≤ 1 := by
  unfold calculateAgreementScore
  split_ifs with h1 h2
  · norm_num
  · norm_num
  · have hd : 0 ≤ |a - s| / max |a| |s| :=
      div_nonneg (abs_nonneg _) (le_trans (abs_nonneg a) (le_max_left _ _))
    have : 1 - |a - s| / max |a| |s| ≤ 1 := by linarith
    exact max_le (by norm_num) this

lemma calculateAgreementScore_self (a : ℚ) (ha : a ≠ 0) :
    calculateAgreementScore a a = 1 := by
  simp [calculateAgreementScore, ha]

lemma calculateAgreementScore_zero_zero : calculateAgreementScore 0 0 = 1 := by
  simp [calculateAgreementScore]

lemma calculateAgreementScore_zero_right (a : ℚ) (ha : a ≠ 0) :
    calculateAgreementScore a 0 = 0 := by
  simp [calculateAgreementScore, ha]

lemma calculateAgreementScore_zero_left (s : ℚ) (hs : s ≠ 0) :
    calculateAgreementScore 0 s = 0 := by
  simp [calculateAgreementScore, hs]

lemma calculateAgreementScore_eq_formula (a s : ℚ) (h : ¬(a = 0 ∧ s = 0)) :
    calculateAgreementScore a s = max 0 (1 - |a - s| / max |a| |s|) := by
  unfold calculateAgreementScore
  rw [if_neg h]
  by_cases ha : a = 0
  · have hs : s ≠ 0 := fun hs => h ⟨ha, hs⟩
    subst ha
    rw [if_pos (Or.inl rfl)]
    rw [zero_sub, abs_neg, abs_zero, max_eq_right (abs_nonneg s),
      div_self (abs_ne_zero.mpr hs)]
    norm_num
  · by_cases hs : s = 0
    · subst hs
      rw [if_pos (Or.inr rfl)]
      rw [sub_zero, abs_zero, max_eq_left (abs_nonneg a),
        div_self (abs_ne_zero.mpr ha)]
      norm_num
    · rw [if_neg (by tauto)]

/-- Conditions under which the comparison step of verify_solution raises
a TypeError inside _calculate_agreement_score: the mismatched subtraction
(list minus float or float minus list) is only reached when the zero
short-circuit analytical == 0 or simulated == 0 does not fire, so a
collision problem with a nonzero scalar answer, or one of the three
scalar-compared families with a list answer and a nonzero compared
simulated value. -/
def comparisonRaisesTypeError (ptype : ProblemType) (quantity_asked : Option String)
    (answer : Answer) (sim : SimReturn) : Bool :=
  match ptype, answer with
  | .collision, .scalar a => decide (a ≠ 0)
  | .projectile, .pair _ _ => decide (sim.getRange ≠ 0)
  | .free_fall, .pair _ _ =>
      if quantity_asked = some "final_velocity" then decide (sim.getFinalVelocity ≠ 0)
      else decide (sim.getDistance ≠ 0)
  | .pendulum, .pair _ _ => decide (sim.getPeriod ≠ 0)
  | _, _ => false

lemma compareScalar_invariant (ans : Answer) (s : ℚ)
    (h : (compareScalar ans s).error = Option.none) :
    ((compareScalar ans s).is_valid = true
      ↔ (compareScalar ans s).agreement_score > 4/5)
    ∧ (compareScalar ans s).confidence = (compareScalar ans s).agreement_score := by
  cases ans with
  | scalar a => simp [compareScalar]
  | pair x y =>
      by_cases hs : s = 0
      · norm_num [compareScalar, hs]
      · exfalso
        simp [compareScalar, hs] at h

lemma comparePair_invariant (ans : Answer) (s : ℚ × ℚ)
    (h : (comparePair ans s).error = Option.none) :
    ((comparePair ans s).is_valid = true
      ↔ (comparePair ans s).agreement_score > 4/5)
    ∧ (comparePair ans s).confidence = (comparePair ans s).agreement_score := by
  cases ans with
  | pair a b => simp [comparePair]
  | scalar a =>
      by_cases ha : a = 0
      · norm_num [comparePair, ha]
      · exfalso
        simp [comparePair, ha] at h

lemma compareScalar_pair_error (x y s : ℚ) (hs : s ≠ 0) :
    (compareScalar (.pair x y) s).is_valid = false
    ∧ (compareScalar (.pair x y) s).confidence = 0
    ∧ (compareScalar (.pair x y) s).error ≠ Option.none := by
  simp [compareScalar, hs]

lemma comparePair_scalar_error (a : ℚ) (s : ℚ × ℚ) (ha : a ≠ 0) :
    (comparePair (.scalar a) s).is_valid = false
    ∧ (comparePair (.scalar a) s).confidence = 0
    ∧ (comparePair (.scalar a) s).error ≠ Option.none := by
  simp [comparePair, ha]

/-- C10: the scalar agreement-score function is symmetric in its two
arguments and bounded between 0 and 1; it is 1 on equal nonzero arguments
and on the pair (0, 0), and 0 when exactly the second argument is zero. -/
theorem agreement_score_symmetric_bounded (x y : ℚ) :
    calculateAgreementScore x y = calculateAgreementScore y x
    ∧ 0 ≤ calculateAgreementScore x y
    ∧ calculateAgreementScore x y ≤ 1
    ∧ (x ≠ 0 → calculateAgreementScore x x = 1)
    ∧ calculateAgreementScore 0 0 = 1
    ∧ (x ≠ 0 → calculateAgreementScore x 0 = 0) :=
  ⟨calculateAgreementScore_comm x y, calculateAgreementScore_nonneg x y,
    calculateAgreementScore_le_one x y, calculateAgreementScore_self x,
    calculateAgreementScore_zero_zero, calculateAgreementScore_zero_right x⟩

/-- Witness for C10 at the concrete pair (2, 3). -/
theorem agreement_score_symmetric_bounded_witness :
    calculateAgreementScore 2 3 = calculateAgreementScore 3 2
    ∧ 0 ≤ calculateAgreementScore 2 3
    ∧ calculateAgreementScore 2 3 ≤ 1
    ∧ calculateAgreementScore 2 2 = 1
    ∧ calculateAgreementScore 0 0 = 1
    ∧ calculateAgreementScore 2 0 = 0 := by
  obtain ⟨h1, h2, h3, h4, h5, h6⟩ := agreement_score_symmetric_bounded 2 3
  exact ⟨h1, h2, h3, h4 (by decide), h5, h6 (by decide)⟩

/-- C2: away from the double-zero carve-out the scalar agreement score is
max(0, 1 - |analytical - simulated| / max(|analytical|, |simulated|)); it
is 1 when both arguments are exactly zero and 0 when exactly one is zero;
and for collision answers verify_solution scores the two components with
equal weight 0.5 each, which is their average. -/
theorem agreement_score_spec (a s a0 a1 s0 s1 : ℚ) :
    (¬(a = 0 ∧ s = 0) →
      calculateAgreementScore a s = max 0 (1 - |a - s| / max |a| |s|))
    ∧ calculateAgreementScore 0 0 = 1
    ∧ (a ≠ 0 → calculateAgreementScore a 0 = 0)
    ∧ (s ≠ 0 → calculateAgreementScore 0 s = 0)
    ∧ (verify_solution .collision Option.none (.pair a0 a1)
        (.collision s0 s1)).agreement_score
      = (calculateAgreementScore a0 s0 + calculateAgreementScore a1 s1) / 2 := by
  refine ⟨calculateAgreementScore_eq_formula a s, calculateAgreementScore_zero_zero,
    calculateAgreementScore_zero_right a, calculateAgreementScore_zero_left s, ?_⟩
  simp only [verify_solution, comparePair, SimReturn.getVelocityAFinal,
    SimReturn.getVelocityBFinal, reduceCtorEq, if_false]
  ring

/-- Witness for C2 at the concrete scalar pair (3, 4) and the concrete
collision comparison of [1, 2] against [5, 7]. -/
theorem agreement_score_spec_witness :
    calculateAgreementScore 3 4 = max 0 (1 - |(3 : ℚ) - 4| / max |(3 : ℚ)| |(4 : ℚ)|)
    ∧ calculateAgreementScore 0 0 = 1
    ∧ calculateAgreementScore 3 0 = 0
    ∧ calculateAgreementScore 0 4 = 0
    ∧ (verify_solution .collision Option.none (.pair 1 2)
        (.collision 5 7)).agreement_score
      = (calculateAgreementScore 1 5 + calculateAgreementScore 2 7) / 2 := by
  obtain ⟨h1, h2, h3, h4, h5⟩ := agreement_score_spec 3 4 1 2 5 7
  exact ⟨h1 (by decide), h2, h3 (by decide), h4 (by decide), h5⟩

/-- C1: whenever verify_solution returns with error = none, the returned
result satisfies is_valid = (agreement_score > 0.8) and
confidence = agreement_score. -/
theorem verify_error_none_invariant (pt : ProblemType) (q : Option String)
    (ans : Answer) (sim : SimReturn)
    (h : (verify_solution pt q ans sim).error = Option.none) :
    ((verify_solution pt q ans sim).is_valid = true
      ↔ (verify_solution pt q ans sim).agreement_score > 4/5)
    ∧ (verify_solution pt q ans sim).confidence
      = (verify_solution pt q ans sim).agreement_score := by
  by_cases hsim : sim = SimReturn.none
  · subst hsim
    simp [verify_solution] at h
  · unfold verify_solution at h ⊢
    rw [if_neg hsim] at h ⊢
    cases pt with
    | projectile => exact compareScalar_invariant _ _ h
    | pendulum => exact compareScalar_invariant _ _ h
    | collision => exact comparePair_invariant _ _ h
    | free_fall =>
        by_cases hq : q = some "final_velocity"
        · have h2 : (compareScalar ans sim.getFinalVelocity).error = Option.none := by
            simpa [hq] using h
          simpa [hq] using compareScalar_invariant _ _ h2
        · have h2 : (compareScalar ans sim.getDistance).error = Option.none := by
            simpa [hq] using h
          simpa [hq] using compareScalar_invariant _ _ h2
    | general => simp at h
    | kinematics => simp at h
    | spring => simp at h
    | circular => simp at h
    | other => simp at h

/-- Witness for C1 at a concrete projectile verification that completes
without error. -/
theorem verify_error_none_invariant_witness :
    ((verify_solution .projectile Option.none (.scalar 1)
        (.projectile 1 0 0)).is_valid = true
      ↔ (verify_solution .projectile Option.none (.scalar 1)
          (.projectile 1 0 0)).agreement_score > 4/5)
    ∧ (verify_solution .projectile Option.none (.scalar 1)
        (.projectile 1 0 0)).confidence
      = (verify_solution .projectile Option.none (.scalar 1)
          (.projectile 1 0 0)).agreement_score :=
  verify_error_none_invariant .projectile Option.none (.scalar 1)
    (.projectile 1 0 0) (by decide)

/-- C3 counterexample: a collision verification in which the simulator
fails (it returns its error dict, as it does when an exception escapes the
routing in SimulationEngine.simulate, for instance with fewer than two
objects) yet verify_solution compares against the defaulted value 0,
returning is_valid = true, confidence = 1 and error = none instead of an
error result. -/
theorem verify_sim_failure_cex :
    verify_solution .collision Option.none (.pair 0 0)
      (.errorDict "Simulation failed: list index out of range")
    = ⟨true, 1, Option.none, 1⟩ := by
  simp only [verify_solution, comparePair, SimReturn.getVelocityAFinal,
    SimReturn.getVelocityBFinal, calculateAgreementScore_zero_zero,
    reduceCtorEq, if_false]
  norm_num

/-- C3 amended: verify_solution never propagates an exception (it is a
total function into VerificationResult), and whenever the simulator
returns a falsy result (None), or the comparison raises a TypeError (a
shape-mismatched answer whose operands escape the zero short-circuit of
_calculate_agreement_score), the result has is_valid = false,
confidence = 0 and a populated error field; a simulator failure reported
through the truthy error dict, or a shape mismatch absorbed by the zero
short-circuit, instead flows on and can produce error = none. -/
theorem verify_soft_failure_amended (pt : ProblemType) (q : Option String)
    (ans : Answer) (sim : SimReturn)
    (h : sim = SimReturn.none ∨ comparisonRaisesTypeError pt q ans sim = true) :
    (verify_solution pt q ans sim).is_valid = false
    ∧ (verify_solution pt q ans sim).confidence = 0
    ∧ (verify_solution pt q ans sim).error ≠ Option.none := by
  by_cases hsim : sim = SimReturn.none
  · subst hsim
    simp [verify_solution]
  · rcases h with h | h
    · exact absurd h hsim
    · unfold comparisonRaisesTypeError at h
      unfold verify_solution
      rw [if_neg hsim]
      cases pt with
      | projectile =>
          cases ans with
          | scalar a => simp at h
          | pair x y => exact compareScalar_pair_error _ _ _ (by simpa using h)
      | pendulum =>
          cases ans with
          | scalar a => simp at h
          | pair x y => exact compareScalar_pair_error _ _ _ (by simpa using h)
      | collision =>
          cases ans with
          | scalar a => exact comparePair_scalar_error _ _ (by simpa using h)
          | pair x y => simp at h
      | free_fall =>
          cases ans with
          | scalar a => simp at h
          | pair x y =>
              by_cases hq : q = some "final_velocity"
              · have h2 : sim.getFinalVelocity ≠ 0 := by simpa [hq] using h
                simpa [hq] using compareScalar_pair_error x y _ h2
              · have h2 : sim.getDistance ≠ 0 := by simpa [hq] using h
                simpa [hq] using compareScalar_pair_error x y _ h2
      | general => cases ans <;> simp at h
      | kinematics => cases ans <;> simp at h
      | spring => cases ans <;> simp at h
      | circular => cases ans <;> simp at h
      | other => cases ans <;> simp at h

/-- Witness for the amended C3 at a concrete failed simulation. -/
theorem verify_soft_failure_amended_witness :
    (verify_solution .projectile Option.none (.scalar 0)
        SimReturn.none).is_valid = false
    ∧ (verify_solution .projectile Option.none (.scalar 0)
        SimReturn.none).confidence = 0
    ∧ (verify_solution .projectile Option.none (.scalar 0)
        SimReturn.none).error ≠ Option.none :=
  verify_soft_failure_amended .projectile Option.none (.scalar 0)
    SimReturn.none (Or.inl rfl)

/-! Elastic collision: PhysicsSolver._solve_collision and
SimulationEngine.simulate_collision.  Both are exact rational arithmetic. -/

/-- Result dict of PhysicsSolver._solve_collision, restricted to the
numeric fields (the echoed inputs and the human-readable steps are
formatting). -/
structure CollisionValues where
  velocity_a_final : ℚ
  velocity_b_final : ℚ
deriving DecidableEq

/-- PhysicsSolver._solve_collision from core/physics_solver.py.  The two
mass guards raise ValueError; the second is unreachable for positive
masses but kept as in the source. -/
def solve_collision (mass_a mass_b velocity_a velocity_b : ℚ) :
    Except String CollisionValues :=
  if mass_a ≤ 0 ∨ mass_b ≤ 0 then
    .error "Mass must be greater than zero"
  else if mass_a + mass_b ≤ 0 then
    .error "Total mass must be greater than zero"
  else
    .ok ⟨((mass_a - mass_b) * velocity_a + 2 * mass_b * velocity_b) / (mass_a + mass_b),
      ((mass_b - mass_a) * velocity_b + 2 * mass_a * velocity_a) / (mass_a + mass_b)⟩

/-- SimulationEngine.simulate_collision from core/simulation_engine.py: an
explicit velocity swap when the masses are exactly equal, otherwise the
closed-form elastic formulas; a zero total mass in the else branch raises
ZeroDivisionError, caught and turned into None. -/
def simulate_collision (mass_a mass_b velocity_a velocity_b : ℚ) :
    Option (ℚ × ℚ) :=
  if mass_a = mass_b then
    some (velocity_b, velocity_a)
  else if mass_a + mass_b = 0 then
    Option.none
  else
    some (((mass_a - mass_b) / (mass_a + mass_b)) * velocity_a
        + ((2 * mass_b) / (mass_a + mass_b)) * velocity_b,
      ((2 * mass_a) / (mass_a + mass_b)) * velocity_a
        + ((mass_b - mass_a) / (mass_a + mass_b)) * velocity_b)

/-- C7: for positive masses the analytical collision solver succeeds and
its final velocities conserve momentum exactly over rational arithmetic. -/
theorem collision_momentum_conserved (mA mB vA vB : ℚ)
    (hA : 0 < mA) (hB : 0 < mB) :
    ∃ r, solve_collision mA mB vA vB = .ok r
      ∧ mA * vA + mB * vB
        = mA * r.velocity_a_final + mB * r.velocity_b_final := by
  have hsum : mA + mB ≠ 0 := by positivity
  refine ⟨⟨((mA - mB) * vA + 2 * mB * vB) / (mA + mB),
    ((mB - mA) * vB + 2 * mA * vA) / (mA + mB)⟩, ?_, ?_⟩
  · unfold solve_collision
    rw [if_neg (by push_neg; exact ⟨hA, hB⟩), if_neg (by push_neg; positivity)]
  · show mA * vA + mB * vB
      = mA * (((mA - mB) * vA + 2 * mB * vB) / (mA + mB))
        + mB * (((mB - mA) * vB + 2 * mA * vA) / (mA + mB))
    field_simp
    ring

/-- Witness for C7 at masses 1 and 1 with velocities 5 and 0. -/
theorem collision_momentum_conserved_witness :
    (0 : ℚ) < 1 ∧
      ∃ r, solve_collision 1 1 5 0 = .ok r
        ∧ (1 : ℚ) * 5 + 1 * 0 = 1 * r.velocity_a_final + 1 * r.velocity_b_final :=
  ⟨by norm_num, collision_momentum_conserved 1 1 5 0 (by norm_num) (by norm_num)⟩

/-- C8: with exactly equal positive masses both the analytical solver and
the simulator produce an exact velocity exchange. -/
theorem equal_mass_velocity_exchange (m vA vB : ℚ) (hm : 0 < m) :
    (∃ r, solve_collision m m vA vB = .ok r
      ∧ r.velocity_a_final = vB ∧ r.velocity_b_final = vA)
    ∧ simulate_collision m m vA vB = some (vB, vA) := by
  have hsum : m + m ≠ 0 := by positivity
  constructor
  · refine ⟨⟨((m - m) * vA + 2 * m * vB) / (m + m),
      ((m - m) * vB + 2 * m * vA) / (m + m)⟩, ?_, ?_, ?_⟩
    · unfold solve_collision
      rw [if_neg (by push_neg; exact ⟨hm, hm⟩), if_neg (by push_neg; positivity)]
    · show ((m - m) * vA + 2 * m * vB) / (m + m) = vB
      field_simp
      ring
    · show ((m - m) * vB + 2 * m * vA) / (m + m) = vA
      field_simp
      ring
  · simp [simulate_collision]

/-- Witness for C8 at mass 1 with velocities 5 and 0. -/
theorem equal_mass_velocity_exchange_witness :
    (0 : ℚ) < 1 ∧
      ((∃ r, solve_collision 1 1 5 0 = .ok r
        ∧ r.velocity_a_final = 0 ∧ r.velocity_b_final = 5)
      ∧ simulate_collision 1 1 5 0 = some (0, 5)) :=
  ⟨by norm_num, equal_mass_velocity_exchange 1 5 0 (by norm_num)⟩

/-! Projectile simulation driver: SimulationEngine.simulate_projectile.
The PyBullet integrator is external; the loop is embedded over an abstract
trajectory traj, where traj i is the (x, z) base position observed after
the physics step of iteration i.  Only the loop and its exit conditions
live in the repository. -/

/-- Running maxima and elapsed time tracked by the simulate_projectile
loop. -/
structure ProjTrack where
  range : ℚ
  max_height : ℚ
  time_flight : ℚ
deriving DecidableEq

/-- The for-loop of simulate_projectile: at each iteration it reads the
position, updates the running maxima and the elapsed time, and breaks as
soon as the height is at most the sphere radius; fuel is the remaining
step budget. -/
def projectileLoop (traj : ℕ → ℚ × ℚ) (radius dt : ℚ) :
    ℕ → ℕ → ProjTrack → ProjTrack
  | _, 0, s => s
  | i, fuel + 1, s =>
      let pos := traj i
      let s' : ProjTrack :=
        ⟨max s.range pos.1, max s.max_height pos.2, s.time_flight + dt⟩
      if pos.2 ≤ radius then s'
      else projectileLoop traj radius dt (i + 1) fuel s'

/-- SimulationEngine.simulate_projectile from core/simulation_engine.py,
with radius 0.1, time step 1/240 and a step budget of 10000.  The running
max_height starts at the launch height and the reported max_height
subtracts the radius, as in the source.  The guard on an empty positions
list is unreachable because the budget is positive, and the except clause
returning None covers only engine failures, which are outside the
embedded loop. -/
def simulate_projectile (traj : ℕ → ℚ × ℚ) (height : ℚ) : Option ProjTrack :=
  let s := projectileLoop traj (1/10) (1/240) 0 10000 ⟨0, height, 0⟩
  some ⟨s.range, s.max_height - 1/10, s.time_flight⟩

lemma projectileLoop_const (p : ℚ × ℚ) (radius dt : ℚ) (hp : radius < p.2) :
    ∀ fuel i s, projectileLoop (fun _ => p) radius dt i (fuel + 1) s
      = ⟨max s.range p.1, max s.max_height p.2, s.time_flight + (fuel + 1) * dt⟩ := by
  intro fuel
  induction fuel with
  | zero =>
      intro i s
      rw [projectileLoop, if_neg (not_le.mpr hp), projectileLoop]
      simp
  | succ k ih =>
      intro i s
      rw [projectileLoop, if_neg (not_le.mpr hp), ih]
      simp only [ProjTrack.mk.injEq]
      refine ⟨?_, ?_, ?_⟩
      · rw [max_assoc, max_self]
      · rw [max_assoc, max_self]
      · push_cast
        ring

lemma projectileLoop_first_cross (traj : ℕ → ℚ × ℚ) (radius dt : ℚ) :
    ∀ k i s fuel, k < fuel → (traj (i + k)).2 ≤ radius →
      (∀ j, j < k → radius < (traj (i + j)).2) →
      projectileLoop traj radius dt i fuel s
        = projectileLoop traj radius dt i (k + 1) s := by
  intro k
  induction k with
  | zero =>
      intro i s fuel hfuel hland _
      obtain ⟨f, rfl⟩ := Nat.exists_eq_add_of_lt hfuel
      rw [add_comm 0]  -- fuel = 0 + f + 1
      rw [projectileLoop, projectileLoop]
      rw [Nat.add_zero] at hland
      rw [if_pos hland, if_pos hland]
  | succ k ih =>
      intro i s fuel hfuel hland hbefore
      obtain ⟨f, rfl⟩ := Nat.exists_eq_add_of_lt hfuel
      have h0 : radius < (traj (i + 0)).2 := hbefore 0 (Nat.succ_pos k)
      rw [Nat.add_zero] at h0
      rw [show k + 1 + f + 1 = (k + f + 1) + 1 by ring]
      rw [projectileLoop]
      rw [if_neg (not_le.mpr h0)]
      conv_rhs => rw [projectileLoop, if_neg (not_le.mpr h0)]
      exact ih (i + 1) _ (k + f + 1) (by omega)
        (by rw [show i + 1 + k = i + (k + 1) by ring]; exact hland)
        (fun j hj => by
          rw [show i + 1 + j = i + (j + 1) by ring]
          exact hbefore (j + 1) (by omega))

/-- C5 counterexample: a trajectory that never crosses the ground plane
(constant height 1, above the radius 0.1) exhausts the 10000-step budget,
yet simulate_projectile still returns the result set with the values
accumulated over the full budget (time_flight = 10000/240 = 125/3)
instead of signalling a SimulationTimeout failure; no timeout path exists
in the source. -/
theorem simulate_projectile_no_timeout_cex :
    simulate_projectile (fun _ => ((0 : ℚ), (1 : ℚ))) 0
      = some ⟨0, 9/10, 125/3⟩ := by
  unfold simulate_projectile
  rw [show (10000 : ℕ) = 9999 + 1 from rfl]
  rw [projectileLoop_const ((0 : ℚ), (1 : ℚ)) (1/10) (1/240) (by norm_num)]
  norm_num

/-- C5 amended: simulate_projectile always returns the result set of
range, max_height and time_flight; if the projectile first crosses the
ground plane at step k within the budget, the loop stops there (the run
equals the run truncated to k + 1 steps), and if the budget is exhausted
before landing the values accumulated over the 10000 steps are returned;
no SimulationTimeout is ever signalled. -/
theorem simulate_projectile_amended (traj : ℕ → ℚ × ℚ) (height : ℚ) (k : ℕ)
    (hk : k < 10000) (hland : (traj k).2 ≤ 1/10)
    (hbefore : ∀ j, j < k → 1/10 < (traj j).2) :
    (simulate_projectile traj height).isSome = true
    ∧ simulate_projectile traj height
      = some ⟨(projectileLoop traj (1/10) (1/240) 0 (k + 1) ⟨0, height, 0⟩).range,
          (projectileLoop traj (1/10) (1/240) 0 (k + 1) ⟨0, height, 0⟩).max_height - 1/10,
          (projectileLoop traj (1/10) (1/240) 0 (k + 1) ⟨0, height, 0⟩).time_flight⟩ := by
  constructor
  · rfl
  · unfold simulate_projectile
    rw [projectileLoop_first_cross traj (1/10) (1/240) k 0 ⟨0, height, 0⟩ 10000 hk
      (by simpa using hland) (fun j hj => by simpa using hbefore j hj)]

/-- Witness for the amended C5: a trajectory that lands immediately. -/
theorem simulate_projectile_amended_witness :
    (simulate_projectile (fun _ => ((5 : ℚ), (0 : ℚ))) 2).isSome = true
    ∧ simulate_projectile (fun _ => ((5 : ℚ), (0 : ℚ))) 2
      = some ⟨(projectileLoop (fun _ => ((5 : ℚ), (0 : ℚ))) (1/10) (1/240) 0 1 ⟨0, 2, 0⟩).range,
          (projectileLoop (fun _ => ((5 : ℚ), (0 : ℚ))) (1/10) (1/240) 0 1 ⟨0, 2, 0⟩).max_height - 1/10,
          (projectileLoop (fun _ => ((5 : ℚ), (0 : ℚ))) (1/10) (1/240) 0 1 ⟨0, 2, 0⟩).time_flight⟩ :=
  simulate_projectile_amended (fun _ => ((5 : ℚ), (0 : ℚ))) 2 0 (by norm_num)
    (by norm_num) (fun j hj => absurd hj (Nat.not_lt_zero j))

/-! Closed-form solvers and the free-fall simulation branch over the
reals.  Config.GRAVITY = 9.81 and the local constant g = 9.81 in
_solve_free_fall and simulate_free_fall are the same value. -/

/-- Config.GRAVITY from config/settings.py. -/
def gravity : ℝ := 9.81

/-- Numeric fields of the result dict of PhysicsSolver._solve_free_fall. -/
structure FreeFallValues where
  distance : ℝ
  final_velocity : ℝ
  time_fall : ℝ
deriving Inhabited

/-- PhysicsSolver._solve_free_fall from core/physics_solver.py.  When
time is not positive and height is negative, math.sqrt raises ValueError
(math domain error), which the method catches and returns as an error
dict. -/
noncomputable def solve_free_fall (height initial_velocity time : ℝ) :
    Except String FreeFallValues :=
  if time > 0 then
    .ok ⟨0.5 * gravity * time * time, gravity * time, time⟩
  else if height < 0 then
    .error "math domain error"
  else
    .ok ⟨height, Real.sqrt (2 * gravity * height), Real.sqrt (2 * height / gravity)⟩

/-- Solution from utils/data_models.py, restricted to the fields the
free-fall path of solve_problem writes (steps default to the empty list
and confidence to 1). -/
structure Solution where
  answer : ℝ
  unit : String
  method : String

/-- The FREE_FALL branch of PhysicsSolver.solve_problem: it calls
_solve_free_fall, then selects answer and unit from the result dict by
quantity_asked.  When _solve_free_fall returned its error dict, the
selection raises KeyError on the missing field, which the outer except
re-raises, so no Solution is produced. -/
noncomputable def solve_problem_free_fall (height initial_velocity time : ℝ)
    (quantity_asked : Option String) : Except String Solution :=
  match solve_free_fall height initial_velocity time with
  | .error e => .error e
  | .ok r =>
      if quantity_asked = some "final_velocity" then
        .ok ⟨r.final_velocity, "m/s", "analytical"⟩
      else if quantity_asked = some "distance" then
        .ok ⟨r.distance, "m", "analytical"⟩
      else if quantity_asked = some "time_fall" then
        .ok ⟨r.time_fall, "s", "analytical"⟩
      else
        .ok ⟨r.final_velocity, "m/s", "analytical"⟩

/-- SimulationEngine.simulate_free_fall from core/simulation_engine.py:
it computes the theoretical closed-form values first and reports exactly
those; the PyBullet integration that follows only fills the unused
positions and velocities lists.  When time is not positive and height is
negative, math.sqrt raises, the except clause returns None. -/
noncomputable def simulate_free_fall (height initial_velocity time : ℝ) :
    Option FreeFallValues :=
  if time > 0 then
    some ⟨0.5 * gravity * time * time, gravity * time, time⟩
  else if height < 0 then
    Option.none
  else
    some ⟨height, Real.sqrt (2 * gravity * height), Real.sqrt (2 * height / gravity)⟩

/-- C4 counterexample: with height = 0 and time = 0 (both non-positive)
the free-fall solve succeeds and produces the Solution with answer 0,
instead of failing with InvalidParameter: sqrt(2 g 0) = 0 raises
nothing. -/
theorem solve_free_fall_boundary_cex :
    solve_problem_free_fall 0 0 0 (some "final_velocity")
      = .ok ⟨0, "m/s", "analytical"⟩ := by
  unfold solve_problem_free_fall solve_free_fall
  norm_num

/-- C4 amended: the free-fall solve fails and produces no Solution when
time is non-positive and height is strictly negative (the failure
surfaces as a math domain error re-raised as an exception, not as a typed
InvalidParameter); at height = 0 with time non-positive it succeeds with
answer 0. -/
theorem solve_free_fall_invalid_amended (height initial_velocity time : ℝ)
    (q : Option String) (ht : ¬ time > 0) (hh : height < 0) :
    solve_problem_free_fall height initial_velocity time q = .error "math domain error" := by
  unfold solve_problem_free_fall solve_free_fall
  rw [if_neg ht, if_pos hh]

/-- Witness for the amended C4 at height = -1, time = 0. -/
theorem solve_free_fall_invalid_amended_witness :
    solve_problem_free_fall (-1) 0 0 Option.none = .error "math domain error" :=
  solve_free_fall_invalid_amended (-1) 0 0 Option.none (by norm_num) (by norm_num)

/-- C6: on every free-fall input the simulator reports exactly the
closed-form values of the analytical solver: the two agree as partial
functions on distance, final_velocity and time_fall, failing on the same
inputs. -/
theorem free_fall_sim_matches_solver (height initial_velocity time : ℝ) :
    Option.map (fun r : FreeFallValues => (r.distance, r.final_velocity, r.time_fall))
        (simulate_free_fall height initial_velocity time)
      = Option.map (fun r : FreeFallValues => (r.distance, r.final_velocity, r.time_fall))
        (solve_free_fall height initial_velocity time).toOption := by
  unfold simulate_free_fall solve_free_fall
  split_ifs <;> rfl

/-- Numeric fields of the result dict of
PhysicsSolver._solve_projectile_motion. -/
structure ProjectileValues where
  range : ℝ
  time_flight : ℝ
  max_height : ℝ
  final_velocity : ℝ

/-- PhysicsSolver._solve_projectile_motion from core/physics_solver.py:
the angle arrives in degrees and is converted with math.radians; the time
of flight is the root of 0.5 g t^2 - v0y t - h0 = 0 via the quadratic
formula with a = 0.5 g, b = -v0y, c = -height, preferring the root with
the plus sign and falling back to the other root when that one is
negative; a negative discriminant raises ValueError, caught and returned
as an error dict. -/
noncomputable def solve_projectile_motion
    (initial_velocity angle height : ℝ) : Except String ProjectileValues :=
  let angle_rad := angle * (Real.pi / 180)
  let v0x := initial_velocity * Real.cos angle_rad
  let v0y := initial_velocity * Real.sin angle_rad
  let a := 0.5 * gravity
  let b := -v0y
  let c := -height
  let disc := b ^ 2 - 4 * a * c
  if disc < 0 then
    .error "No real solution for time of flight"
  else
    let t1 := (-b + Real.sqrt disc) / (2 * a)
    let time_flight := if t1 < 0 then (-b - Real.sqrt disc) / (2 * a) else t1
    let range_x := v0x * time_flight
    let time_to_max := v0y / gravity
    let max_height := height + v0y * time_to_max - 0.5 * gravity * time_to_max ^ 2
    let final_velocity_y := v0y - gravity * time_flight
    .ok ⟨range_x, time_flight, max_height,
      Real.sqrt (v0x ^ 2 + final_velocity_y ^ 2)⟩

/-- C9: for a projectile launched from height 0 with positive speed and a
launch angle whose sine is non-negative (a valid upward launch), the
solver succeeds and its range is v0 squared times sin(2 theta) over g,
because the positive root of the time-of-flight quadratic reduces to
2 v0 sin(theta) / g at h0 = 0. -/
theorem projectile_range_closed_form (v0 angle : ℝ) (hv : 0 < v0)
    (hsin : 0 ≤ Real.sin (angle * (Real.pi / 180))) :
    Except.map (fun r : ProjectileValues => r.range)
        (solve_projectile_motion v0 angle 0)
      = .ok (v0 ^ 2 * Real.sin (2 * (angle * (Real.pi / 180))) / gravity) := by
  set θ := angle * (Real.pi / 180) with hθ
  have hv0y : 0 ≤ v0 * Real.sin θ := mul_nonneg hv.le hsin
  have hgrav : (0 : ℝ) < gravity := by norm_num [gravity]
  have hdisc : (-(v0 * Real.sin θ)) ^ 2 - 4 * (0.5 * gravity) * (-(0 : ℝ))
      = (v0 * Real.sin θ) ^ 2 := by ring
  have ht1 : ¬ ((-(-(v0 * Real.sin θ)) + v0 * Real.sin θ) / (2 * (0.5 * gravity)) < 0) := by
    push_neg
    apply div_nonneg (by linarith) (by linarith)
  simp only [solve_projectile_motion]
  rw [← hθ, hdisc, Real.sqrt_sq hv0y]
  rw [if_neg (not_lt.mpr (sq_nonneg (v0 * Real.sin θ))), if_neg ht1]
  simp only [Except.map]
  rw [Real.sin_two_mul]
  congr 1
  field_simp
  ring

/-- Witness for C9 at speed 1 and angle 0 degrees. -/
theorem projectile_range_closed_form_witness :
    (0 : ℝ) < 1 ∧ 0 ≤ Real.sin (0 * (Real.pi / 180)) ∧
      Except.map (fun r : ProjectileValues => r.range)
          (solve_projectile_motion 1 0 0)
        = .ok (1 ^ 2 * Real.sin (2 * (0 * (Real.pi / 180))) / gravity) :=
  ⟨one_pos, by simp, projectile_range_closed_form 1 0 one_pos (by simp)⟩

end PhysicsAgent
